import Mathlib

/-!
# `loadRecentPosts` (svelte-app/src/utils.js)

A shallow embedding of the single exported helper of the repository,

```
async function loadRecentPosts(user_id, n) {
  var response;
  const params = { method: 'GET', credentials: 'same-origin' }
  if (user_id === null) {
    response = await fetch("/api/recent-posts?n=" + n, params);
  } else {
    response = await fetch("/api/recent-posts?req_user_id=" + user_id + "&n=" + n, params);
  }
  if (response.ok) { return response.json(); } else { return {}; }
}
```

The two platform operations the function calls, `fetch` and `Response.json`, are not code of
the repository; they are taken as parameters (`Transport`).  A promise is modelled by its
settled state: `Except.ok v` is a promise resolved to `v`, `Except.error e` a promise rejected
with `e`.  Every platform call the function makes is recorded, in order, in a trace.

The operator `+` with a string on the left converts its right operand with the language's
`ToString`.  An integer count reaches the function as a Number (a double) or as a BigInt.  For
a BigInt `ToString` is the decimal numeral.  For a Number it is `Number::toString`, which
prints the shortest decimal that converts back to the same double, in exponential form from 22
digits on; it is the decimal numeral of the count only while the count is in the safe integer
range.  `numberToString` follows the language definition on integral doubles.
-/

namespace SelfHostSocial

/-! ## Data model -/

/-- The values the argument `user_id` takes: the value `null`, the value `undefined`
(which is also what an omitted argument is bound to) and strings. -/
inductive JsValue where
  | null
  | undefined
  | str (s : String)
  deriving DecidableEq, Repr

/-- The string a value contributes as the right operand of `+` with a string on the left. -/
def JsValue.toStr : JsValue → String
  | .null => "null"
  | .undefined => "undefined"
  | .str s => s

/-- An integer count as the function receives it in the argument `n`: an integral Number (a
double, whose mathematical value is `value`) or a BigInt. -/
inductive JsNumeric where
  | number (value : Int)
  | bigint (value : Int)
  deriving DecidableEq, Repr

/-- The integer a count denotes. -/
def JsNumeric.value : JsNumeric → Int
  | .number v => v
  | .bigint v => v

/-- The decimal numeral of an integer, with a leading `-` for a negative one. -/
def decimal (v : Int) : String := toString v

/-- Searches upwards from `e` for the first exponent with `v / 2 ^ e < 2 ^ 53`. -/
def ulpExponentFrom (v : Nat) : Nat → Nat → Nat
  | 0, e => e
  | fuel + 1, e => if v / 2 ^ e < 2 ^ 53 then e else ulpExponentFrom v fuel (e + 1)

/-- The exponent `e` for which the doubles around `v` are the multiples of `2 ^ e`: the least
`e` with `v / 2 ^ e < 2 ^ 53` (a double has a 53-bit significand). -/
def ulpExponent (v : Nat) : Nat := ulpExponentFrom v 1024 0

/-- The double nearest to the natural number `v` (in the range of the finite doubles), ties
going to the even significand: the Number value of `v`. -/
def roundToDouble (v : Nat) : Nat :=
  let e := ulpExponent v
  let q := v / 2 ^ e
  let r := v % 2 ^ e
  if 2 * r < 2 ^ e then q * 2 ^ e
  else if 2 ^ e < 2 * r then (q + 1) * 2 ^ e
  else if q % 2 = 0 then q * 2 ^ e
  else (q + 1) * 2 ^ e

/-- The natural number is the value of a finite double: a significand below `2 ^ 53` times a
power of two with exponent at most 971. -/
def isDouble (m : Nat) : Prop := roundToDouble m = m ∧ ulpExponent m ≤ 971

instance (m : Nat) : Decidable (isDouble m) := by
  unfold isDouble
  infer_instance

/-- A count the function can receive: any BigInt, and a Number whose value is a double. -/
def JsNumeric.wellFormed : JsNumeric → Prop
  | .number v => isDouble v.natAbs
  | .bigint _ => True

instance (n : JsNumeric) : Decidable n.wellFormed := by
  cases n <;> unfold JsNumeric.wellFormed <;> infer_instance

/-- A BigInt, or a Number in the safe integer range (magnitude below `2 ^ 53`). -/
def JsNumeric.isSafe : JsNumeric → Prop
  | .number v => v.natAbs < 2 ^ 53
  | .bigint _ => True

instance (n : JsNumeric) : Decidable n.isSafe := by
  cases n <;> unfold JsNumeric.isSafe <;> infer_instance

/-- Step 5 of `Number::toString` for a positive integral double `m`: the shortest decimal that
converts back to `m`.  With `j` low digits dropped the two candidates are `m` rounded down and
up to a multiple of `10 ^ j`; the largest `j` with a candidate that converts back to `m` gives
the fewest significant digits, and of two such candidates the one nearer to `m` is taken. -/
def shortestFrom (m : Nat) : Nat → Nat
  | 0 => m
  | j + 1 =>
    let lo := m / 10 ^ (j + 1) * 10 ^ (j + 1)
    let hi := lo + 10 ^ (j + 1)
    if lo ≠ 0 ∧ roundToDouble lo = m then
      if roundToDouble hi = m ∧ hi - m < m - lo then hi else lo
    else if roundToDouble hi = m then hi
    else shortestFrom m j

/-- The shortest decimal that converts back to the double `m`, as a number: the digits `s` of
`Number::toString` followed by its `n - k` zeros. -/
def shortestDecimal (m : Nat) : Nat := shortestFrom m (Nat.toDigits 10 m).length

/-- The digits of a numeral without its trailing zeros. -/
def stripTrailingZeros (ds : List Char) : List Char :=
  (ds.reverse.dropWhile (fun c => c == '0')).reverse

/-- Step 7 and later of `Number::toString` (exponential form) for the decimal `v` of `n` digits:
the significant digits, a point after the first when there are several, then `e+` and
`n - 1`. -/
def exponentForm (v : Nat) : String :=
  let ds := Nat.toDigits 10 v
  let exponent := "e+" ++ toString (ds.length - 1)
  match stripTrailingZeros ds with
  | [] => "0"
  | [d] => String.mk [d] ++ exponent
  | d :: rest => String.mk (d :: '.' :: rest) ++ exponent

/-- The operation `Number::toString` (radix 10) on a non-negative integral double `m`: the
shortest decimal that converts back to `m`, written out in full when it has at most 21 digits
and in exponential form otherwise. -/
def numberToString (m : Nat) : String :=
  if m = 0 then "0"
  else if shortestDecimal m < 10 ^ 21 then toString (shortestDecimal m)
  else exponentForm (shortestDecimal m)

/-- The string a count contributes as the right operand of `+` with a string on the left:
`Number::toString` for a Number, with a leading `-` for a negative one, and the decimal numeral
for a BigInt. -/
def JsNumeric.toStr : JsNumeric → String
  | .number v => if v < 0 then "-" ++ numberToString v.natAbs else numberToString v.natAbs
  | .bigint v => decimal v

/-- A parsed JSON value; the payload is opaque to the helper. -/
inductive Json where
  | null
  | bool (b : Bool)
  | num (n : Int)
  | str (s : String)
  | arr (xs : List Json)
  | obj (members : List (String × Json))

/-- The object literal `{}`. -/
def Json.emptyObject : Json := Json.obj []

/-- A failure raised by the platform: a rejected promise's reason. -/
structure JsError where
  name : String
  message : String
  deriving DecidableEq, Repr

/-- An object literal with string-valued properties, in source order. -/
abbrev ObjectLiteral := List (String × String)

/-- The part of a `Response` the helper can observe: its status and its (unparsed) body. -/
structure Response where
  status : Nat
  body : String
  deriving DecidableEq, Repr

/-- The `ok` getter of a `Response`: the status is in the range 200 to 299. -/
def Response.ok (r : Response) : Bool := decide (200 ≤ r.status ∧ r.status ≤ 299)

/-- The platform the helper runs on: `fetch(target, init)` settles to a response or rejects;
`json` is the parse `Response.json()` performs on the body, which yields a value or rejects. -/
structure Transport where
  fetch : String → ObjectLiteral → Except JsError Response
  json : String → Except JsError Json

/-- A platform call made by the helper. -/
inductive Effect where
  | fetch (target : String) (init : ObjectLiteral)
  | json (body : String)
  deriving DecidableEq, Repr

/-- What one invocation does: the platform calls it made, in order, and the settled state of
the promise it returns. -/
structure Outcome where
  trace : List Effect
  result : Except JsError Json

/-! ## The helper -/

/-- The constant `params` of `loadRecentPosts`. -/
def params : ObjectLiteral := [("method", "GET"), ("credentials", "same-origin")]

/-- The first argument of the `fetch` call of `loadRecentPosts`. -/
def requestTarget (user_id : JsValue) (n : JsNumeric) : String :=
  if user_id = JsValue.null then
    "/api/recent-posts?n=" ++ n.toStr
  else
    "/api/recent-posts?req_user_id=" ++ user_id.toStr ++ "&n=" ++ n.toStr

/-- The second argument of the `fetch` call of `loadRecentPosts`. -/
def requestInit (user_id : JsValue) : ObjectLiteral :=
  if user_id = JsValue.null then params else params

/-- The function `loadRecentPosts(user_id, n)`. -/
def loadRecentPosts (env : Transport) (user_id : JsValue) (n : JsNumeric) : Outcome :=
  let call := Effect.fetch (requestTarget user_id n) (requestInit user_id)
  match env.fetch (requestTarget user_id n) (requestInit user_id) with
  | .error e => { trace := [call], result := .error e }
  | .ok response =>
    if response.ok then
      { trace := [call, Effect.json response.body], result := env.json response.body }
    else
      { trace := [call], result := .ok Json.emptyObject }

/-- The `fetch` calls among the platform calls of a trace. -/
def fetchCalls (t : List Effect) : List (String × ObjectLiteral) :=
  t.filterMap fun
    | .fetch target init => some (target, init)
    | .json _ => none

/-- The bodies parsed as JSON among the platform calls of a trace. -/
def jsonCalls (t : List Effect) : List String :=
  t.filterMap fun
    | .fetch _ _ => none
    | .json body => some body

/-! ## Reading a request target back (used to state properties of targets) -/

/-- Splits a list of characters at every occurrence of `sep`. -/
def splitAtChar (sep : Char) : List Char → List (List Char)
  | [] => [[]]
  | c :: cs =>
    if c = sep then [] :: splitAtChar sep cs
    else
      match splitAtChar sep cs with
      | [] => [[c]]
      | p :: ps => (c :: p) :: ps

/-- The query string of a target: what follows the first `?`. -/
def queryString (target : String) : List Char :=
  (target.data.dropWhile (fun c => c != '?')).drop 1

/-- The query parameters of a target: its query string split on `&`. -/
def queryParameters (target : String) : List String :=
  (splitAtChar '&' (queryString target)).map String.mk

/-- The name of a query parameter: what precedes its first `=`. -/
def parameterName (p : String) : String :=
  String.mk (p.data.takeWhile (fun c => c != '='))

/-- The number a list of decimal digit characters denotes, most significant digit first. -/
def decimalValue (cs : List Char) : Nat :=
  cs.foldl (fun acc c => acc * 10 + (c.toNat - 48)) 0

/-- The integer a decimal numeral with an optional leading `-` denotes. -/
def integerValue (cs : List Char) : Int :=
  if cs.head? = some '-' then - (decimalValue cs.tail : Int) else (decimalValue cs : Int)

/-- The character is one of `0` to `9`. -/
def isDecimalDigit (c : Char) : Prop := 48 ≤ c.toNat ∧ c.toNat ≤ 57

instance (c : Char) : Decidable (isDecimalDigit c) := by
  unfold isDecimalDigit
  infer_instance

/-- The targets of the `fetch` calls one invocation makes, in order. -/
def requestTargets (env : Transport) (user_id : JsValue) (n : JsNumeric) : List String :=
  (fetchCalls (loadRecentPosts env user_id n).trace).map Prod.fst

/-- The `init` arguments of the `fetch` calls one invocation makes, in order. -/
def requestInits (env : Transport) (user_id : JsValue) (n : JsNumeric) : List ObjectLiteral :=
  (fetchCalls (loadRecentPosts env user_id n).trace).map Prod.snd

/-- A platform whose `fetch` settles the same way for every request and whose JSON parse
settles the same way for every body. -/
def constantTransport (settled : Except JsError Response) (parsed : Except JsError Json) :
    Transport :=
  { fetch := fun _ _ => settled, json := fun _ => parsed }

/-- Null or a string, as a value of the argument `user_id`. -/
def JsValue.ofOption : Option String → JsValue
  | none => JsValue.null
  | some s => JsValue.str s


/-! ## Lemmas on the trace -/

theorem fetchCalls_loadRecentPosts (env : Transport) (user_id : JsValue) (n : JsNumeric) :
    fetchCalls (loadRecentPosts env user_id n).trace
      = [(requestTarget user_id n, requestInit user_id)] := by
  unfold loadRecentPosts
  cases env.fetch (requestTarget user_id n) (requestInit user_id) with
  | error e => simp [fetchCalls]
  | ok response =>
    cases hok : response.ok <;> simp [fetchCalls, hok]

theorem requestInit_eq (user_id : JsValue) : requestInit user_id = params := by
  unfold requestInit
  split <;> rfl

/-! ## Lemmas on decimal numerals -/

theorem digitChar_spec (k : Nat) (hk : k < 10) :
    isDecimalDigit (Nat.digitChar k) ∧ (Nat.digitChar k).toNat - 48 = k := by
  interval_cases k <;> decide

theorem toDigitsCore_acc (fuel : Nat) :
    ∀ (n : Nat) (acc : List Char),
      Nat.toDigitsCore 10 fuel n acc = Nat.toDigitsCore 10 fuel n [] ++ acc := by
  induction fuel with
  | zero => intro n acc; simp [Nat.toDigitsCore]
  | succ fuel ih =>
    intro n acc
    simp only [Nat.toDigitsCore]
    split
    · simp
    · rw [ih (n / 10) (Nat.digitChar (n % 10) :: acc), ih (n / 10) [Nat.digitChar (n % 10)]]
      simp

theorem toDigitsCore_digits (fuel : Nat) :
    ∀ (n : Nat), ∀ c ∈ Nat.toDigitsCore 10 fuel n [], isDecimalDigit c := by
  induction fuel with
  | zero => intro n c hc; simp [Nat.toDigitsCore] at hc
  | succ fuel ih =>
    intro n c hc
    simp only [Nat.toDigitsCore] at hc
    have hd := (digitChar_spec (n % 10) (Nat.mod_lt n (by decide))).1
    split at hc
    · simp at hc; subst hc; exact hd
    · rw [toDigitsCore_acc] at hc
      simp at hc
      rcases hc with hc | hc
      · exact ih _ c hc
      · subst hc; exact hd

theorem decimalValue_snoc (cs : List Char) (c : Char) :
    decimalValue (cs ++ [c]) = decimalValue cs * 10 + (c.toNat - 48) := by
  simp [decimalValue, List.foldl_append]

theorem decimalValue_toDigitsCore (fuel : Nat) :
    ∀ (n : Nat), n < fuel → decimalValue (Nat.toDigitsCore 10 fuel n []) = n := by
  induction fuel with
  | zero => intro n hn; omega
  | succ fuel ih =>
    intro n hn
    simp only [Nat.toDigitsCore]
    have hd := (digitChar_spec (n % 10) (Nat.mod_lt n (by decide))).2
    split
    · rename_i h0
      simp [decimalValue, hd]
      omega
    · rename_i h0
      rw [toDigitsCore_acc, decimalValue_snoc, hd, ih (n / 10) (by omega)]
      omega

theorem toDigits_digits (m : Nat) : ∀ c ∈ Nat.toDigits 10 m, isDecimalDigit c :=
  toDigitsCore_digits (m + 1) m

theorem decimalValue_toDigits (m : Nat) : decimalValue (Nat.toDigits 10 m) = m :=
  decimalValue_toDigitsCore (m + 1) m (Nat.lt_succ_self m)

theorem toDigits_head (m : Nat) : (Nat.toDigits 10 m).head? ≠ some '-' := by
  intro h
  have hmem : '-' ∈ Nat.toDigits 10 m := List.mem_of_mem_head? (by simp [h])
  have := toDigits_digits m _ hmem
  revert this
  decide

theorem decimal_ofNat (m : Nat) :
    (decimal (Int.ofNat m)).data = Nat.toDigits 10 m := rfl

theorem decimal_negSucc (m : Nat) :
    (decimal (Int.negSucc m)).data = '-' :: Nat.toDigits 10 (m + 1) := rfl

/-- Reading the numeral of an integer back gives the integer: `decimal` is the decimal
numeral. -/
theorem integerValue_decimal (n : Int) :
    integerValue (decimal n).data = n := by
  cases n with
  | ofNat m =>
    rw [decimal_ofNat]
    unfold integerValue
    rw [if_neg (toDigits_head m), decimalValue_toDigits]
    rfl
  | negSucc m =>
    rw [decimal_negSucc]
    unfold integerValue
    simp [decimalValue_toDigits]
    rw [Int.negSucc_eq]
    omega

theorem decimal_chars (n : Int) :
    ∀ c ∈ (decimal n).data, c = '-' ∨ isDecimalDigit c := by
  intro c hc
  cases n with
  | ofNat m =>
    rw [decimal_ofNat] at hc
    exact Or.inr (toDigits_digits m c hc)
  | negSucc m =>
    rw [decimal_negSucc] at hc
    simp at hc
    rcases hc with hc | hc
    · exact Or.inl hc
    · exact Or.inr (toDigits_digits _ c hc)

theorem decimal_injective (n m : Int)
    (h : decimal n = decimal m) : n = m := by
  rw [← integerValue_decimal n, ← integerValue_decimal m, h]

theorem amp_not_mem_decimal (n : Int) : '&' ∉ (decimal n).data := by
  intro h
  rcases decimal_chars n _ h with h | h
  · revert h; decide
  · revert h; decide

/-! ## Lemmas on `Number::toString` -/

theorem ulpExponentFrom_spec (v : Nat) :
    ∀ (fuel e : Nat), e ≤ ulpExponentFrom v fuel e
      ∧ (e < ulpExponentFrom v fuel e → 2 ^ 53 ≤ v / 2 ^ (ulpExponentFrom v fuel e - 1)) := by
  intro fuel
  induction fuel with
  | zero => intro e; simp [ulpExponentFrom]
  | succ fuel ih =>
    intro e
    simp only [ulpExponentFrom]
    split
    · simp
    · rename_i hlt
      obtain ⟨h1, h2⟩ := ih (e + 1)
      refine ⟨by omega, fun _ => ?_⟩
      by_cases heq : ulpExponentFrom v fuel (e + 1) = e + 1
      · rw [heq]
        simp only [Nat.add_sub_cancel]
        omega
      · exact h2 (by omega)

theorem ulpExponentFrom_succ (v fuel e : Nat) :
    ulpExponentFrom v (fuel + 1) e
      = if v / 2 ^ e < 2 ^ 53 then e else ulpExponentFrom v fuel (e + 1) := rfl

theorem ulpExponent_of_lt (v : Nat) (h : v < 2 ^ 53) : ulpExponent v = 0 := by
  show ulpExponentFrom v (1023 + 1) 0 = 0
  rw [ulpExponentFrom_succ, if_pos (by simpa using h)]

theorem roundToDouble_of_lt (v : Nat) (h : v < 2 ^ 53) : roundToDouble v = v := by
  simp [roundToDouble, ulpExponent_of_lt v h, Nat.mod_one]

theorem roundToDouble_ge (v : Nat) (h : 2 ^ 53 ≤ v) : 2 ^ 53 ≤ roundToDouble v := by
  have hpos : 0 < ulpExponent v := by
    have h0 : ¬ v / 2 ^ 0 < 2 ^ 53 := by simpa using h
    show 0 < ulpExponentFrom v (1023 + 1) 0
    rw [ulpExponentFrom_succ, if_neg h0]
    exact (ulpExponentFrom_spec v 1023 (0 + 1)).1
  have hdiv := (ulpExponentFrom_spec v 1024 0).2 hpos
  change 2 ^ 53 ≤ v / 2 ^ (ulpExponent v - 1) at hdiv
  obtain ⟨e, he⟩ : ∃ e, ulpExponent v = e + 1 := ⟨ulpExponent v - 1, by omega⟩
  rw [he] at hdiv
  simp only [Nat.add_sub_cancel] at hdiv
  have h1 : 2 ^ 53 * 2 ^ e ≤ v := (Nat.le_div_iff_mul_le (Nat.two_pow_pos e)).mp hdiv
  have h2 : 2 ^ 52 * 2 ^ (e + 1) = 2 ^ 53 * 2 ^ e := by ring
  have hq : 2 ^ 52 ≤ v / 2 ^ (e + 1) :=
    (Nat.le_div_iff_mul_le (Nat.two_pow_pos (e + 1))).mpr (h2 ▸ h1)
  have hpow : 2 ≤ 2 ^ (e + 1) := by
    have h3 : 1 ≤ 2 ^ e := Nat.one_le_two_pow
    have h4 : 2 ^ (e + 1) = 2 * 2 ^ e := by ring
    omega
  have hmul : 2 ^ 53 ≤ v / 2 ^ (e + 1) * 2 ^ (e + 1) :=
    calc 2 ^ 53 = 2 ^ 52 * 2 := by norm_num
      _ ≤ v / 2 ^ (e + 1) * 2 ^ (e + 1) := Nat.mul_le_mul hq hpow
  have hmul2 : v / 2 ^ (e + 1) * 2 ^ (e + 1) ≤ (v / 2 ^ (e + 1) + 1) * 2 ^ (e + 1) :=
    Nat.mul_le_mul_right _ (Nat.le_succ _)
  unfold roundToDouble
  simp only [he]
  split
  · exact hmul
  · split
    · exact le_trans hmul hmul2
    · split
      · exact hmul
      · exact le_trans hmul hmul2

theorem eq_of_roundToDouble_eq (v m : Nat) (hm : m < 2 ^ 53) (h : roundToDouble v = m) :
    v = m := by
  by_cases hv : v < 2 ^ 53
  · rw [roundToDouble_of_lt v hv] at h
    exact h
  · have := roundToDouble_ge v (by omega)
    omega

theorem shortestFrom_spec (m : Nat) :
    ∀ j : Nat, shortestFrom m j = m ∨ roundToDouble (shortestFrom m j) = m := by
  intro j
  induction j with
  | zero => exact Or.inl rfl
  | succ j ih =>
    simp only [shortestFrom]
    split
    · rename_i hlo
      split
      · rename_i hhi
        exact Or.inr hhi.1
      · exact Or.inr hlo.2
    · split
      · rename_i hhi
        exact Or.inr hhi
      · exact ih

theorem shortestDecimal_of_lt (m : Nat) (hm : m < 2 ^ 53) : shortestDecimal m = m := by
  rcases shortestFrom_spec m (Nat.toDigits 10 m).length with h | h
  · exact h
  · exact eq_of_roundToDouble_eq _ m hm h

theorem numberToString_of_lt (m : Nat) (hm : m < 2 ^ 53) : numberToString m = toString m := by
  unfold numberToString
  split
  · rename_i h0
    rw [h0]
    rfl
  · rw [shortestDecimal_of_lt m hm]
    have : m < 10 ^ 21 := lt_trans hm (by norm_num)
    rw [if_pos this]

theorem toStr_of_isSafe (n : JsNumeric) (h : n.isSafe) : n.toStr = decimal n.value := by
  cases n with
  | bigint v => rfl
  | number v =>
    simp only [JsNumeric.isSafe] at h
    simp only [JsNumeric.toStr, JsNumeric.value, decimal]
    rw [numberToString_of_lt _ h]
    cases v with
    | ofNat k =>
      have : ¬ (Int.ofNat k < 0) := by simp
      rw [if_neg this]
      rfl
    | negSucc k =>
      have : Int.negSucc k < 0 := Int.negSucc_lt_zero k
      rw [if_pos this]
      rfl

/-- Known outputs of `Number::toString` on integral doubles, reproduced by `numberToString`. -/
theorem numberToString_examples :
    numberToString 0 = "0"
    ∧ numberToString 10 = "10"
    ∧ numberToString (2 ^ 53) = "9007199254740992"
    ∧ numberToString (2 ^ 55) = "36028797018963970"
    ∧ numberToString (2 ^ 60) = "1152921504606847000"
    ∧ numberToString (2 ^ 69) = "590295810358705700000"
    ∧ numberToString (10 ^ 21) = "1e+21"
    ∧ numberToString (2 ^ 70) = "1.1805916207174113e+21"
    ∧ numberToString 99999999999999991611392 = "1e+23" := by
  decide

/-! ## Lemmas on request targets -/

theorem append_sep_inj {α : Type} (x : α) :
    ∀ (a a' b b' : List α), x ∉ b → x ∉ b' → a ++ x :: b = a' ++ x :: b' → a = a' ∧ b = b' := by
  intro a
  induction a with
  | nil =>
    intro a' b b' hb hb' h
    cases a' with
    | nil => simpa using h
    | cons y t =>
      simp at h
      exact absurd (h.2 ▸ (by simp : x ∈ t ++ x :: b')) hb
  | cons z t ih =>
    intro a' b b' hb hb' h
    cases a' with
    | nil =>
      simp at h
      exact absurd (h.2 ▸ (by simp : x ∈ t ++ x :: b)) hb'
    | cons y t' =>
      simp at h
      obtain ⟨h1, h2⟩ := ih t' b b' hb hb' h.2
      exact ⟨by rw [h.1, h1], h2⟩

theorem requestTarget_null_data (n : JsNumeric) :
    (requestTarget JsValue.null n).data
      = "/api/recent-posts?".data ++ ('n' :: '=' :: n.toStr.data) := by
  simp [requestTarget, String.data_append]

theorem requestTarget_str_data (s : String) (n : JsNumeric) :
    (requestTarget (JsValue.str s) n).data
      = "/api/recent-posts?".data
          ++ ("req_user_id=".data ++ s.data ++ '&' :: 'n' :: '=' :: n.toStr.data) := by
  simp [requestTarget, JsValue.toStr, String.data_append]

theorem amp_not_mem_count_parameter (n : JsNumeric) (hn : n.isSafe) :
    '&' ∉ 'n' :: '=' :: n.toStr.data := by
  intro h
  rw [toStr_of_isSafe n hn] at h
  simp at h
  exact amp_not_mem_decimal n.value h

theorem value_eq_of_toStr_data_eq (n n' : JsNumeric) (hn : n.isSafe) (hn' : n'.isSafe)
    (h : n.toStr.data = n'.toStr.data) : n.value = n'.value := by
  rw [toStr_of_isSafe n hn, toStr_of_isSafe n' hn'] at h
  exact decimal_injective _ _ (String.ext h)

theorem requestTarget_ofOption_injective (u u' : Option String) (n n' : JsNumeric)
    (hn : n.isSafe) (hn' : n'.isSafe)
    (h : requestTarget (JsValue.ofOption u) n = requestTarget (JsValue.ofOption u') n') :
    u = u' ∧ n.value = n'.value := by
  have hd := congrArg String.data h
  cases u with
  | none =>
    cases u' with
    | none =>
      simp only [JsValue.ofOption, requestTarget_null_data] at hd
      have h2 := List.append_cancel_left hd
      simp at h2
      exact ⟨rfl, value_eq_of_toStr_data_eq n n' hn hn' h2⟩
    | some s' =>
      simp only [JsValue.ofOption, requestTarget_null_data, requestTarget_str_data] at hd
      have h2 := List.append_cancel_left hd
      simp at h2
  | some s =>
    cases u' with
    | none =>
      simp only [JsValue.ofOption, requestTarget_null_data, requestTarget_str_data] at hd
      have h2 := List.append_cancel_left hd
      simp at h2
    | some s' =>
      simp only [JsValue.ofOption, requestTarget_str_data] at hd
      have h2 := List.append_cancel_left hd
      rw [List.append_assoc, List.append_assoc] at h2
      have h3 := List.append_cancel_left h2
      obtain ⟨h4, h5⟩ := append_sep_inj '&' _ _ _ _
        (amp_not_mem_count_parameter n hn) (amp_not_mem_count_parameter n' hn') h3
      simp at h5
      exact ⟨by rw [String.ext h4], value_eq_of_toStr_data_eq n n' hn hn' h5⟩

theorem requestTargets_eq (env : Transport) (user_id : JsValue) (n : JsNumeric) :
    requestTargets env user_id n = [requestTarget user_id n] := by
  simp [requestTargets, fetchCalls_loadRecentPosts]

theorem requestInits_eq (env : Transport) (user_id : JsValue) (n : JsNumeric) :
    requestInits env user_id n = [params] := by
  simp [requestInits, fetchCalls_loadRecentPosts, requestInit_eq]

theorem splitAtChar_of_not_mem (sep : Char) :
    ∀ (l : List Char), sep ∉ l → splitAtChar sep l = [l] := by
  intro l
  induction l with
  | nil => intro _; rfl
  | cons c cs ih =>
    intro h
    simp at h
    have hc : c ≠ sep := fun e => h.1 e.symm
    simp [splitAtChar, hc, ih h.2]

theorem queryString_null (n : JsNumeric) :
    queryString (requestTarget JsValue.null n) = 'n' :: '=' :: n.toStr.data := by
  rw [queryString, requestTarget_null_data]
  rfl

theorem queryParameters_null (n : JsNumeric) (hn : n.isSafe) :
    queryParameters (requestTarget JsValue.null n) = ["n=" ++ n.toStr] := by
  rw [queryParameters, queryString_null,
    splitAtChar_of_not_mem '&' _ (amp_not_mem_count_parameter n hn)]
  rfl

theorem requestTarget_null_ne_str (s : String) (a b : JsNumeric) :
    requestTarget JsValue.null a ≠ requestTarget (JsValue.str s) b := by
  intro h
  have hd := congrArg String.data h
  simp only [requestTarget_null_data, requestTarget_str_data] at hd
  have h2 := List.append_cancel_left hd
  simp at h2

/-! ## The request target -/

/-- C1 (amended): for every `user_id` other than `null` and every integer count that is a
BigInt or a Number in the safe integer range (magnitude below `2 ^ 53`), the one request goes to
exactly `"/api/recent-posts?req_user_id=" ++ user_id ++ "&n=" ++ decimal(count)`; for a string
(the empty string included) the id is inserted as it is, and `"u42"` with count 10 gives
exactly `/api/recent-posts?req_user_id=u42&n=10`. -/
theorem loadRecentPosts_user_target (env : Transport) (n : JsNumeric) (hn : n.isSafe) :
    (∀ user_id : JsValue, user_id ≠ JsValue.null →
        requestTargets env user_id n
          = ["/api/recent-posts?req_user_id=" ++ user_id.toStr ++ "&n=" ++ decimal n.value])
    ∧ (∀ s : String,
        requestTargets env (JsValue.str s) n
          = ["/api/recent-posts?req_user_id=" ++ s ++ "&n=" ++ decimal n.value])
    ∧ requestTargets env (JsValue.str "") n
          = ["/api/recent-posts?req_user_id=&n=" ++ decimal n.value]
    ∧ requestTargets env (JsValue.str "u42") (JsNumeric.number 10)
          = ["/api/recent-posts?req_user_id=u42&n=10"]
    ∧ integerValue (decimal n.value).data = n.value := by
  refine ⟨?_, ?_, ?_, ?_, integerValue_decimal n.value⟩
  · intro user_id h
    rw [requestTargets_eq, requestTarget, if_neg h, toStr_of_isSafe n hn]
  · intro s
    rw [requestTargets_eq, ← toStr_of_isSafe n hn]
    rfl
  · rw [requestTargets_eq, ← toStr_of_isSafe n hn]
    exact congrArg (fun t => [t]) (String.ext (by simp [requestTarget, JsValue.toStr]))
  · rw [requestTargets_eq]
    decide

theorem loadRecentPosts_user_target_witness :
    (JsNumeric.number 10).isSafe
    ∧ JsValue.str "u42" ≠ JsValue.null
    ∧ requestTargets (constantTransport (.ok ⟨200, "[]"⟩) (.ok (Json.arr []))) (JsValue.str "u42") (JsNumeric.number 10)
        = ["/api/recent-posts?req_user_id=u42&n=10"] :=
  ⟨by decide, by decide,
    (loadRecentPosts_user_target (constantTransport (.ok ⟨200, "[]"⟩) (.ok (Json.arr []))) (JsNumeric.number 10) (by decide)).1
      (JsValue.str "u42") (by decide)⟩

/-- C1 as stated fails: the count `1e21` is an integral Number, and for it the request goes to
`/api/recent-posts?req_user_id=u42&n=1e+21`, not to the target with the decimal numeral
`1000000000000000000000`; the integral Number `2 ^ 55` gives the digits `36028797018963970`,
not its decimal numeral `36028797018963968`. -/
theorem loadRecentPosts_user_target_counterexample :
    (JsNumeric.number (10 ^ 21)).wellFormed
    ∧ requestTargets (constantTransport (.ok ⟨200, "[]"⟩) (.ok (Json.arr []))) (JsValue.str "u42") (JsNumeric.number (10 ^ 21))
        = ["/api/recent-posts?req_user_id=u42&n=1e+21"]
    ∧ requestTargets (constantTransport (.ok ⟨200, "[]"⟩) (.ok (Json.arr []))) (JsValue.str "u42") (JsNumeric.number (10 ^ 21))
        ≠ ["/api/recent-posts?req_user_id=" ++ "u42" ++ "&n="
            ++ decimal (JsNumeric.number (10 ^ 21)).value]
    ∧ (JsNumeric.number (2 ^ 55)).wellFormed
    ∧ requestTargets (constantTransport (.ok ⟨200, "[]"⟩) (.ok (Json.arr []))) (JsValue.str "u42") (JsNumeric.number (2 ^ 55))
        = ["/api/recent-posts?req_user_id=u42&n=36028797018963970"]
    ∧ requestTargets (constantTransport (.ok ⟨200, "[]"⟩) (.ok (Json.arr []))) (JsValue.str "u42") (JsNumeric.number (2 ^ 55))
        ≠ ["/api/recent-posts?req_user_id=" ++ "u42" ++ "&n="
            ++ decimal (JsNumeric.number (2 ^ 55)).value] := by
  simp only [requestTargets_eq]
  decide

/-- C2 (amended): for `user_id = null` and every integer count that is a BigInt or a Number in
the safe integer range (magnitude below `2 ^ 53`), zero and negative ones included, the one
request goes to exactly `"/api/recent-posts?n=" ++ decimal(count)`, whose only query parameter
is `n` (no `req_user_id`); count 5 gives exactly `/api/recent-posts?n=5`. -/
theorem loadRecentPosts_null_target (env : Transport) (n : JsNumeric) (hn : n.isSafe) :
    requestTargets env JsValue.null n = ["/api/recent-posts?n=" ++ decimal n.value]
    ∧ queryParameters (requestTarget JsValue.null n) = ["n=" ++ decimal n.value]
    ∧ (queryParameters (requestTarget JsValue.null n)).map parameterName = ["n"]
    ∧ requestTargets env JsValue.null (JsNumeric.number 5) = ["/api/recent-posts?n=5"]
    ∧ requestTargets env JsValue.null (JsNumeric.number 0) = ["/api/recent-posts?n=0"]
    ∧ requestTargets env JsValue.null (JsNumeric.number (-3)) = ["/api/recent-posts?n=-3"]
    ∧ requestTargets env JsValue.null (JsNumeric.bigint 5) = ["/api/recent-posts?n=5"]
    ∧ integerValue (decimal n.value).data = n.value := by
  refine ⟨?_, ?_, ?_, ?_, ?_, ?_, ?_, integerValue_decimal n.value⟩
  · rw [requestTargets_eq, ← toStr_of_isSafe n hn]
    rfl
  · rw [queryParameters_null n hn, toStr_of_isSafe n hn]
  · rw [queryParameters_null n hn, toStr_of_isSafe n hn]
    rfl
  · rw [requestTargets_eq]
    decide
  · rw [requestTargets_eq]
    decide
  · rw [requestTargets_eq]
    decide
  · rw [requestTargets_eq]
    decide

theorem loadRecentPosts_null_target_witness :
    (JsNumeric.number (-3)).isSafe
    ∧ requestTargets (constantTransport (.ok ⟨200, "[]"⟩) (.ok (Json.arr []))) JsValue.null (JsNumeric.number (-3)) = ["/api/recent-posts?n=-3"]
    ∧ queryParameters (requestTarget JsValue.null (JsNumeric.number (-3))) = ["n=-3"] :=
  ⟨by decide,
    (loadRecentPosts_null_target (constantTransport (.ok ⟨200, "[]"⟩) (.ok (Json.arr []))) (JsNumeric.number (-3)) (by decide)).1,
    (loadRecentPosts_null_target (constantTransport (.ok ⟨200, "[]"⟩) (.ok (Json.arr []))) (JsNumeric.number (-3)) (by decide)).2.1⟩

/-- C2 as stated fails: for `user_id = null` and the integral Number count `1e21` the request
goes to `/api/recent-posts?n=1e+21`, not to `"/api/recent-posts?n=" ++ decimal(count)`; the
integral Number `2 ^ 55` gives `/api/recent-posts?n=36028797018963970`. -/
theorem loadRecentPosts_null_target_counterexample :
    (JsNumeric.number (10 ^ 21)).wellFormed
    ∧ requestTargets (constantTransport (.ok ⟨200, "[]"⟩) (.ok (Json.arr []))) JsValue.null (JsNumeric.number (10 ^ 21)) = ["/api/recent-posts?n=1e+21"]
    ∧ requestTargets (constantTransport (.ok ⟨200, "[]"⟩) (.ok (Json.arr []))) JsValue.null (JsNumeric.number (10 ^ 21))
        ≠ ["/api/recent-posts?n=" ++ decimal (JsNumeric.number (10 ^ 21)).value]
    ∧ (JsNumeric.number (2 ^ 55)).wellFormed
    ∧ requestTargets (constantTransport (.ok ⟨200, "[]"⟩) (.ok (Json.arr []))) JsValue.null (JsNumeric.number (2 ^ 55))
        = ["/api/recent-posts?n=36028797018963970"]
    ∧ requestTargets (constantTransport (.ok ⟨200, "[]"⟩) (.ok (Json.arr []))) JsValue.null (JsNumeric.number (2 ^ 55))
        ≠ ["/api/recent-posts?n=" ++ decimal (JsNumeric.number (2 ^ 55)).value] := by
  simp only [requestTargets_eq]
  decide

/-- C5 (what the code does where the claim fails): an omitted `user_id` is `undefined`, which
is not `=== null`, so the request is the user-scoped one for the id `undefined`: the target is
`/api/recent-posts?req_user_id=undefined&n=5` for count 5, it carries a `req_user_id`
parameter, and it is not the global target `/api/recent-posts?n=5`. -/
theorem loadRecentPosts_undefined_target (env : Transport) (n : JsNumeric) :
    requestTargets env JsValue.undefined n
        = ["/api/recent-posts?req_user_id=undefined&n=" ++ n.toStr]
    ∧ requestTargets env JsValue.undefined (JsNumeric.number 5) = ["/api/recent-posts?req_user_id=undefined&n=5"]
    ∧ (queryParameters (requestTarget JsValue.undefined (JsNumeric.number 5))).map parameterName
        = ["req_user_id", "n"]
    ∧ requestTargets env JsValue.undefined (JsNumeric.number 5) ≠ ["/api/recent-posts?n=" ++ (JsNumeric.number 5).toStr] := by
  refine ⟨?_, ?_, by decide, ?_⟩
  · rw [requestTargets_eq]
    exact congrArg (fun t => [t]) (String.ext (by simp [requestTarget, JsValue.toStr]))
  · rw [requestTargets_eq]
    rfl
  · rw [requestTargets_eq]
    decide

/-- C10: the id is inserted verbatim, so the user-scoped target does not always carry exactly
the two parameters `req_user_id` and `n`: the id `u&n=1` with count 5 gives
`/api/recent-posts?req_user_id=u&n=1&n=5`, whose query string split on `&` has three
parameters, `req_user_id=u`, `n=1` (chosen by the id) and `n=5`. -/
theorem loadRecentPosts_user_id_verbatim (env : Transport) :
    (∀ (s : String) (n : JsNumeric),
        requestTargets env (JsValue.str s) n
          = ["/api/recent-posts?req_user_id=" ++ s ++ "&n=" ++ n.toStr])
    ∧ requestTargets env (JsValue.str "u&n=1") (JsNumeric.number 5) = ["/api/recent-posts?req_user_id=u&n=1&n=5"]
    ∧ queryParameters (requestTarget (JsValue.str "u&n=1") (JsNumeric.number 5)) = ["req_user_id=u", "n=1", "n=5"]
    ∧ (queryParameters (requestTarget (JsValue.str "u&n=1") (JsNumeric.number 5))).map parameterName
        = ["req_user_id", "n", "n"]
    ∧ 2 < (queryParameters (requestTarget (JsValue.str "u&n=1") (JsNumeric.number 5))).length := by
  refine ⟨?_, ?_, by decide, by decide, by decide⟩
  · intro s n
    rw [requestTargets_eq]
    rfl
  · rw [requestTargets_eq]
    rfl

/-- C9 (amended): over `user_id` null or a string and integer counts that are BigInts or
Numbers in the safe integer range (magnitude below `2 ^ 53`), the request target determines
the arguments: two invocations whose requests go to the same target have the same `user_id`
and the same count.  For every count, the global target is never a user-scoped target. -/
theorem loadRecentPosts_target_injective (env env' : Transport) (u u' : Option String)
    (n n' : JsNumeric) (hn : n.isSafe) (hn' : n'.isSafe)
    (h : requestTargets env (JsValue.ofOption u) n = requestTargets env' (JsValue.ofOption u') n') :
    (u = u' ∧ n.value = n'.value)
    ∧ (∀ (s : String) (a b : JsNumeric),
        requestTarget JsValue.null a ≠ requestTarget (JsValue.str s) b) := by
  constructor
  · rw [requestTargets_eq, requestTargets_eq] at h
    exact requestTarget_ofOption_injective u u' n n' hn hn' (List.singleton_inj.mp h)
  · exact requestTarget_null_ne_str

theorem loadRecentPosts_target_injective_witness :
    (JsNumeric.number 10).isSafe
    ∧ (JsNumeric.bigint 10).isSafe
    ∧ requestTargets (constantTransport (.ok ⟨200, "[]"⟩) (.ok (Json.arr []))) (JsValue.ofOption (some "u42")) (JsNumeric.number 10)
      = requestTargets (constantTransport (.error ⟨"TypeError", "Failed to fetch"⟩) (.ok Json.null))
        (JsValue.ofOption (some "u42")) (JsNumeric.bigint 10)
    ∧ ((some "u42" = some "u42" ∧ (JsNumeric.number 10).value = (JsNumeric.bigint 10).value)
      ∧ (∀ (s : String) (a b : JsNumeric),
          requestTarget JsValue.null a ≠ requestTarget (JsValue.str s) b)) :=
  ⟨by decide, by decide, by decide,
    loadRecentPosts_target_injective (constantTransport (.ok ⟨200, "[]"⟩) (.ok (Json.arr [])))
      (constantTransport (.error ⟨"TypeError", "Failed to fetch"⟩) (.ok Json.null))
      (some "u42") (some "u42") (JsNumeric.number 10) (JsNumeric.bigint 10)
      (by decide) (by decide) (by decide)⟩

/-- C9 as stated fails: the Number `2 ^ 55` (the integer 36028797018963968) and the BigInt
36028797018963970 are different integer counts, yet with the same `user_id` both requests go to
`/api/recent-posts?req_user_id=u42&n=36028797018963970`. -/
theorem loadRecentPosts_target_injective_counterexample :
    (JsNumeric.number (2 ^ 55)).wellFormed
    ∧ (JsNumeric.bigint 36028797018963970).wellFormed
    ∧ requestTargets (constantTransport (.ok ⟨200, "[]"⟩) (.ok (Json.arr []))) (JsValue.ofOption (some "u42")) (JsNumeric.number (2 ^ 55))
      = requestTargets (constantTransport (.ok ⟨200, "[]"⟩) (.ok (Json.arr []))) (JsValue.ofOption (some "u42")) (JsNumeric.bigint 36028797018963970)
    ∧ requestTargets (constantTransport (.ok ⟨200, "[]"⟩) (.ok (Json.arr []))) (JsValue.ofOption (some "u42")) (JsNumeric.number (2 ^ 55))
      = ["/api/recent-posts?req_user_id=u42&n=36028797018963970"]
    ∧ (JsNumeric.number (2 ^ 55)).value ≠ (JsNumeric.bigint 36028797018963970).value := by
  simp only [requestTargets_eq]
  decide

/-! ## The request options -/

/-- C6: for every `user_id` (null or not) and every count the one request carries exactly the
options `method = GET` and `credentials = same-origin` and nothing else (no `headers`, no
`body`); the options are the same on both branches. -/
theorem loadRecentPosts_request_options (env : Transport) (user_id : JsValue) (n : JsNumeric) :
    requestInits env user_id n = [[("method", "GET"), ("credentials", "same-origin")]]
    ∧ (requestInit user_id).map Prod.fst = ["method", "credentials"]
    ∧ (requestInit user_id).lookup "headers" = none
    ∧ (requestInit user_id).lookup "body" = none
    ∧ requestInit user_id = requestInit JsValue.null := by
  rw [requestInits_eq, requestInit_eq, requestInit_eq]
  exact ⟨rfl, rfl, by decide, by decide, rfl⟩

/-! ## The number of requests -/

/-- C8: every invocation, for every `user_id`, every count and every outcome of the transport
(success status, non-success status, network failure), makes exactly one `fetch` call. -/
theorem loadRecentPosts_one_request (env : Transport) (user_id : JsValue) (n : JsNumeric) :
    (fetchCalls (loadRecentPosts env user_id n).trace).length = 1 := by
  rw [fetchCalls_loadRecentPosts]
  rfl

/-! ## The result -/

/-- C3: when the response has a status outside 200 to 299, the returned promise resolves to the
empty object whatever the body is, and the body is never parsed. -/
theorem loadRecentPosts_non_success (env : Transport) (user_id : JsValue) (n : JsNumeric)
    (r : Response)
    (hfetch : env.fetch (requestTarget user_id n) (requestInit user_id) = .ok r)
    (hstatus : ¬ (200 ≤ r.status ∧ r.status ≤ 299)) :
    (loadRecentPosts env user_id n).result = .ok (Json.obj [])
    ∧ jsonCalls (loadRecentPosts env user_id n).trace = [] := by
  have hok : r.ok = false := by simp [Response.ok, hstatus]
  unfold loadRecentPosts
  rw [hfetch]
  simp [hok, jsonCalls, Json.emptyObject]

theorem loadRecentPosts_non_success_witness :
    (constantTransport (.ok ⟨404, "<h1>Not Found</h1>"⟩)
        (.error ⟨"SyntaxError", "Unexpected token <"⟩)).fetch
        (requestTarget (JsValue.str "u42") (JsNumeric.number 10)) (requestInit (JsValue.str "u42"))
      = .ok ⟨404, "<h1>Not Found</h1>"⟩
    ∧ ¬ (200 ≤ (⟨404, "<h1>Not Found</h1>"⟩ : Response).status
        ∧ (⟨404, "<h1>Not Found</h1>"⟩ : Response).status ≤ 299)
    ∧ (loadRecentPosts (constantTransport (.ok ⟨404, "<h1>Not Found</h1>"⟩)
        (.error ⟨"SyntaxError", "Unexpected token <"⟩)) (JsValue.str "u42") (JsNumeric.number 10)).result
      = .ok (Json.obj [])
    ∧ jsonCalls (loadRecentPosts (constantTransport (.ok ⟨404, "<h1>Not Found</h1>"⟩)
        (.error ⟨"SyntaxError", "Unexpected token <"⟩)) (JsValue.str "u42") (JsNumeric.number 10)).trace = [] :=
  ⟨rfl, by decide,
    loadRecentPosts_non_success (constantTransport (.ok ⟨404, "<h1>Not Found</h1>"⟩)
      (.error ⟨"SyntaxError", "Unexpected token <"⟩)) (JsValue.str "u42") (JsNumeric.number 10)
      ⟨404, "<h1>Not Found</h1>"⟩ rfl (by decide)⟩

/-- C4: when the response has a status in 200 to 299 and its body parses as JSON to a value
`v`, the returned promise resolves to exactly `v`; the body is parsed once. -/
theorem loadRecentPosts_success (env : Transport) (user_id : JsValue) (n : JsNumeric)
    (r : Response) (v : Json)
    (hfetch : env.fetch (requestTarget user_id n) (requestInit user_id) = .ok r)
    (hstatus : 200 ≤ r.status ∧ r.status ≤ 299)
    (hparse : env.json r.body = .ok v) :
    (loadRecentPosts env user_id n).result = .ok v
    ∧ jsonCalls (loadRecentPosts env user_id n).trace = [r.body] := by
  have hok : r.ok = true := by simp [Response.ok, hstatus]
  unfold loadRecentPosts
  rw [hfetch]
  simp [hok, jsonCalls, hparse]

theorem loadRecentPosts_success_witness :
    (constantTransport (.ok ⟨200, "\x7b\"posts\":[1,2,3]\x7d"⟩)
        (.ok (Json.obj [("posts", Json.arr [Json.num 1, Json.num 2, Json.num 3])]))).fetch
        (requestTarget JsValue.null (JsNumeric.number 5)) (requestInit JsValue.null)
      = .ok ⟨200, "\x7b\"posts\":[1,2,3]\x7d"⟩
    ∧ (loadRecentPosts (constantTransport (.ok ⟨200, "\x7b\"posts\":[1,2,3]\x7d"⟩)
        (.ok (Json.obj [("posts", Json.arr [Json.num 1, Json.num 2, Json.num 3])])))
        JsValue.null (JsNumeric.number 5)).result
      = .ok (Json.obj [("posts", Json.arr [Json.num 1, Json.num 2, Json.num 3])]) :=
  ⟨rfl,
    (loadRecentPosts_success (constantTransport (.ok ⟨200, "\x7b\"posts\":[1,2,3]\x7d"⟩)
      (.ok (Json.obj [("posts", Json.arr [Json.num 1, Json.num 2, Json.num 3])])))
      JsValue.null (JsNumeric.number 5) ⟨200, "\x7b\"posts\":[1,2,3]\x7d"⟩
      (Json.obj [("posts", Json.arr [Json.num 1, Json.num 2, Json.num 3])])
      rfl (by decide) rfl).1⟩

/-- C7: if the `fetch` promise rejects with `e`, or the response has a status in 200 to 299 and
parsing its body rejects with `e`, the returned promise rejects with that same `e`; it is not
turned into the empty object or any other value. -/
theorem loadRecentPosts_failure_propagates (env : Transport) (user_id : JsValue) (n : JsNumeric)
    (e : JsError) :
    (env.fetch (requestTarget user_id n) (requestInit user_id) = .error e →
        (loadRecentPosts env user_id n).result = .error e)
    ∧ (∀ r : Response,
        env.fetch (requestTarget user_id n) (requestInit user_id) = .ok r →
        (200 ≤ r.status ∧ r.status ≤ 299) →
        env.json r.body = .error e →
        (loadRecentPosts env user_id n).result = .error e) := by
  constructor
  · intro hfetch
    unfold loadRecentPosts
    rw [hfetch]
  · intro r hfetch hstatus hparse
    have hok : r.ok = true := by simp [Response.ok, hstatus]
    unfold loadRecentPosts
    rw [hfetch]
    simp [hok, hparse]

theorem loadRecentPosts_failure_propagates_witness :
    (loadRecentPosts (constantTransport (.error ⟨"TypeError", "Failed to fetch"⟩) (.ok Json.null))
        (JsValue.str "u42") (JsNumeric.number 10)).result
      = .error ⟨"TypeError", "Failed to fetch"⟩
    ∧ (loadRecentPosts (constantTransport (.ok ⟨200, "<html>"⟩)
        (.error ⟨"SyntaxError", "Unexpected token <"⟩)) JsValue.null (JsNumeric.number 5)).result
      = .error ⟨"SyntaxError", "Unexpected token <"⟩ :=
  ⟨(loadRecentPosts_failure_propagates
      (constantTransport (.error ⟨"TypeError", "Failed to fetch"⟩) (.ok Json.null))
      (JsValue.str "u42") (JsNumeric.number 10) ⟨"TypeError", "Failed to fetch"⟩).1 rfl,
    (loadRecentPosts_failure_propagates
      (constantTransport (.ok ⟨200, "<html>"⟩) (.error ⟨"SyntaxError", "Unexpected token <"⟩))
      JsValue.null (JsNumeric.number 5) ⟨"SyntaxError", "Unexpected token <"⟩).2 ⟨200, "<html>"⟩ rfl (by decide) rfl⟩

end SelfHostSocial
